import Mathlib

/-!
Verification of the authorization and relationship-management core of a
multi-tenant project-management backend (FastAPI/SQLModel).

The embedding below translates the relevant endpoint functions into pure
Lean functions over an explicit database state `DB`.  HTTP error outcomes
are modelled as `Except Nat`, carrying the HTTP status code exactly as the
source raises it (`HTTPException(status_code = ...)`):
401 Unauthenticated, 403 Forbidden, 404 NotFound, 400 ValidationError,
500 unexpected persistence failure.

Persistence-layer transactions: the source issues the resource-row update
through the request's ORM session (`db.commit()`) and the junction-table
replacement through a separate connection (`with engine.connect() as
connection: ... connection.commit()`).  Inside that connection the DELETE
and the INSERTs form one transaction committed by the single trailing
`connection.commit()`; if an INSERT raises (e.g. a foreign-key violation,
the source performs no validation of supplied principal ids), the
connection context closes without commit and the whole replacement rolls
back.  Mutating endpoints therefore return the database state reached so
far together with the response.  Failure injection into the junction
transaction is modelled by an explicit `failAt : Option Nat` parameter
(step 0 = the DELETE statement, step k+1 = the k-th INSERT); a failure at
any step rolls the whole junction transaction back.
-/

namespace FastDash

/-- Role vocabulary, from `app/models/user.py` (`class UserRole`). -/
inductive Role where
  | USER | CLIENT | STAFF | MANAGER | ADMIN | SUPER_ADMIN
  deriving Repr, DecidableEq

/-- Authenticated user row, restricted to the fields the authorization
core consults (`app/models/user.py`). -/
structure User where
  id : String
  email : String
  roles : List Role
  deriving Repr, DecidableEq

/-- `User.is_privileged` property from `app/models/user.py`:
ADMIN or SUPER_ADMIN.  The project endpoints inline the equivalent
string-membership test (`"super_admin" in current_user.roles or "admin"
in current_user.roles`); since `UserRole` is a string enum the two tests
agree. -/
def User.isPrivileged (u : User) : Bool :=
  u.roles.contains Role.ADMIN || u.roles.contains Role.SUPER_ADMIN

/-- Project row, restricted to the fields the claims touch
(`app/models/project.py`).  `owner_id` is `Optional[str]` in the source. -/
structure Project where
  id : Nat
  name : String
  ownerId : Option String
  deriving Repr, DecidableEq

/-- Task row (`app/models/task.py`): no owner field; `project_id` is
optional. -/
structure Task where
  id : Nat
  name : String
  status : String
  projectId : Option Nat
  deriving Repr, DecidableEq

/-- Note row (`app/models/note.py`): `user_id` (owner) is `Optional[str]`. -/
structure Note where
  id : Nat
  title : String
  content : String
  userId : Option String
  deriving Repr, DecidableEq

/-- Database state: the tables the authorization/relationship core reads
and writes.  Junction tables `task_assignees(task_id, user_id)` and
`note_shares(note_id, user_id)` are lists of composite-key pairs.
`nextProjectId` models the autoincrement primary-key counter used on
insert. -/
structure DB where
  users : List User
  projects : List Project
  tasks : List Task
  notes : List Note
  taskAssignees : List (Nat × String)
  noteShares : List (Nat × String)
  nextProjectId : Nat
  deriving Repr, DecidableEq

/-- `db.get(Project, project_id)`. -/
def dbGetProject (db : DB) (pid : Nat) : Option Project :=
  db.projects.find? (fun p => p.id == pid)

/-- `db.get(Task, task_id)`. -/
def dbGetTask (db : DB) (tid : Nat) : Option Task :=
  db.tasks.find? (fun t => t.id == tid)

/-- `db.get(Note, note_id)` (the read path uses an equivalent
`select(Note).where(Note.id == note_id)`). -/
def dbGetNote (db : DB) (nid : Nat) : Option Note :=
  db.notes.find? (fun n => n.id == nid)

/-- `db.get(User, user_id)`. -/
def dbGetUser (db : DB) (uid : String) : Option User :=
  db.users.find? (fun u => u.id == uid)

/-!  ## Project endpoints (`app/api/v1/endpoints/projects.py`)  -/

/-- `read_project` (projects.py lines 52-84): load by id, 404 if absent,
then 403 unless privileged or owner. -/
def read_project (db : DB) (u : User) (pid : Nat) : Except Nat Project :=
  match dbGetProject db pid with
  | none => .error 404
  | some project =>
    if !u.isPrivileged && project.ownerId != some u.id then .error 403
    else .ok project

/-- Creation payload for a project: the fields of the posted `Project`
body that the claims touch (the primary key is assigned by the database
on insert). -/
structure ProjectCreate where
  name : String
  ownerId : Option String
  deriving Repr, DecidableEq

/-- `create_project` (projects.py lines 87-113): no ownership or
privilege check; `if not project.owner_id: project.owner_id =
current_user.id` — Python falsiness, so both a missing (`None`) and an
empty-string owner id are defaulted to the caller; any other supplied
owner id is kept verbatim.  The row is then inserted unconditionally. -/
def create_project (db : DB) (u : User) (p : ProjectCreate) : DB × Project :=
  let oid := if p.ownerId == none || p.ownerId == some "" then some u.id else p.ownerId
  let row : Project := { id := db.nextProjectId, name := p.name, ownerId := oid }
  ({ db with projects := db.projects ++ [row], nextProjectId := db.nextProjectId + 1 }, row)

/-- Update payload for a project, restricted to a representative mutable
field (the source applies `setattr` over an arbitrary dict). -/
structure ProjectUpdate where
  name : Option String
  deriving Repr, DecidableEq

/-- The `setattr` loop of `update_project` on the modelled fields. -/
def applyProjectFields (p : Project) (upd : ProjectUpdate) : Project :=
  { p with name := upd.name.getD p.name }

/-- `update_project` (projects.py lines 116-157): load by id, 404 if
absent, then 403 unless privileged or owner, then apply field updates and
commit. -/
def update_project (db : DB) (u : User) (pid : Nat) (upd : ProjectUpdate) :
    DB × Except Nat Project :=
  match dbGetProject db pid with
  | none => (db, .error 404)
  | some project =>
    if !u.isPrivileged && project.ownerId != some u.id then (db, .error 403)
    else
      let project' := applyProjectFields project upd
      ({ db with projects := db.projects.map (fun q => if q.id == pid then project' else q) },
       .ok project')

/-!  ## Relationship manager (junction-table replace)

Shared shape of the `shared_with` / `assignees` replacement blocks in
`update_note` (notes.py lines 207-218) and `update_task` (tasks.py lines
182-193): one connection, `DELETE FROM <junction> WHERE <resource_id> =
:rid`, then one `INSERT` per supplied principal id, then a single
`connection.commit()`.
-/

/-- Committed effect of the junction replacement for resource `rid`:
delete every row whose resource side is `rid`, then insert `(rid, uid)`
for each supplied id, in order. -/
def replaceJunctionRows (rows : List (Nat × String)) (rid : Nat) (ids : List String) :
    List (Nat × String) :=
  rows.filter (fun r => r.1 != rid) ++ ids.map (fun uid => (rid, uid))

/-- The replacement as a transaction with failure injection.  `failAt =
some k` injects a raised statement at step `k` (0 = the DELETE, `j+1` =
the `j`-th INSERT); any such failure exits the connection context before
the trailing `connection.commit()`, so the whole transaction rolls back
and `none` is returned.  With no reachable failure the committed rows are
returned. -/
def replaceJunctionTx (rows : List (Nat × String)) (rid : Nat) (ids : List String)
    (failAt : Option Nat) : Option (List (Nat × String)) :=
  match failAt with
  | some k => if k ≤ ids.length then none else some (replaceJunctionRows rows rid ids)
  | none => some (replaceJunctionRows rows rid ids)

/-!  ## Task endpoints (`app/api/v1/endpoints/tasks.py`)  -/

/-- The project-ownership half of the task permission check (tasks.py
lines 78-83, 162-166, 218-222): true when the task has a `project_id`,
that project exists, and its `owner_id` equals the caller's id. -/
def projectOwned (db : DB) (task : Task) (u : User) : Bool :=
  match task.projectId with
  | none => false
  | some pid =>
    match dbGetProject db pid with
    | some project => project.ownerId == some u.id
    | none => false

/-- The assignment half of the task read check (tasks.py lines 86-91): a
`task_assignees` row `(task_id, user_id)` exists. -/
def assigned (db : DB) (tid : Nat) (uid : String) : Bool :=
  db.taskAssignees.any (fun r => r.1 == tid && r.2 == uid)

/-- `read_task` (tasks.py lines 58-96): 404 if absent; then, unless
privileged, 403 unless the caller owns the parent project OR is an
assignee of the task. -/
def read_task (db : DB) (u : User) (tid : Nat) : Except Nat Task :=
  match dbGetTask db tid with
  | none => .error 404
  | some task =>
    if !u.isPrivileged && !(projectOwned db task u) && !(assigned db tid u.id) then
      .error 403
    else .ok task

/-- Update payload for a task: representative mutable scalar fields (the
source applies `setattr` over an arbitrary dict) plus the popped
`assignees` collection — `none` models an absent key (`pop` default
`None`, meaning "don't update"), `some []` an explicit empty list. -/
structure TaskUpdate where
  name : Option String
  status : Option String
  assignees : Option (List String)
  deriving Repr, DecidableEq

/-- The `setattr` loop of `update_task` on the modelled fields. -/
def applyTaskFields (t : Task) (upd : TaskUpdate) : Task :=
  { t with name := upd.name.getD t.name, status := upd.status.getD t.status }

/-- `update_task` (tasks.py lines 142-196): 404 if absent; then, unless
privileged, 403 unless the caller owns the parent project (assignment is
NOT consulted here, unlike `read_task`); then the row update is committed
through the session, and afterwards — only when `assignees` was supplied —
the junction replacement runs as a separate transaction on a separate
connection.  A failure in that transaction propagates (500) with the row
update already committed. -/
def update_task (db : DB) (u : User) (tid : Nat) (upd : TaskUpdate)
    (failAt : Option Nat) : DB × Except Nat Task :=
  match dbGetTask db tid with
  | none => (db, .error 404)
  | some task =>
    if !u.isPrivileged && !(projectOwned db task u) then (db, .error 403)
    else
      let task' := applyTaskFields task upd
      let db1 := { db with tasks := db.tasks.map (fun t => if t.id == tid then task' else t) }
      match upd.assignees with
      | none => (db1, .ok task')
      | some ids =>
        match replaceJunctionTx db1.taskAssignees tid ids failAt with
        | none => (db1, .error 500)
        | some rows => ({ db1 with taskAssignees := rows }, .ok task')

/-- Deleting the task row itself, under the foreign-key constraint of
`task_assignees.task_id`: the row delete fails if a junction row still
references the task (this is why the source deletes junction rows first —
"Delete task assignees first (foreign key constraint)"). -/
def deleteTaskRow (db : DB) (tid : Nat) : Option DB :=
  if db.taskAssignees.any (fun r => r.1 == tid) then none
  else some { db with tasks := db.tasks.filter (fun t => t.id != tid) }

/-- `delete_task` (tasks.py lines 199-235): 404 if absent; then, unless
privileged, 403 unless the caller owns the parent project; then delete
all `task_assignees` rows for the task (committed first), then delete the
task row. -/
def delete_task (db : DB) (u : User) (tid : Nat) : DB × Except Nat Unit :=
  match dbGetTask db tid with
  | none => (db, .error 404)
  | some task =>
    if !u.isPrivileged && !(projectOwned db task u) then (db, .error 403)
    else
      let db1 := { db with taskAssignees := db.taskAssignees.filter (fun r => r.1 != tid) }
      match deleteTaskRow db1 tid with
      | some db2 => (db2, .ok ())
      | none => (db1, .error 500)

/-!  ## Note endpoints (`app/api/v1/endpoints/notes.py`)  -/

/-- `read_note` (notes.py lines 65-100): 404 if absent; then, unless
privileged, 403 unless `note.user_id == current_user.id`.  The stored
`note_shares` membership is not consulted (the source carries a TODO to
that effect). -/
def read_note (db : DB) (u : User) (nid : Nat) : Except Nat Note :=
  match dbGetNote db nid with
  | none => .error 404
  | some note =>
    if !u.isPrivileged && note.userId != some u.id then .error 403
    else .ok note

/-- Update payload for a note: representative mutable scalar fields plus
the popped `shared_with` collection — `none` models an absent key (`pop`
default `None`, "don't update"), `some []` an explicit empty list. -/
structure NoteUpdate where
  title : Option String
  content : Option String
  sharedWith : Option (List String)
  deriving Repr, DecidableEq

/-- The `setattr` loop of `update_note` on the modelled fields. -/
def applyNoteFields (n : Note) (upd : NoteUpdate) : Note :=
  { n with title := upd.title.getD n.title, content := upd.content.getD n.content }

/-- `update_note` (notes.py lines 156-223): 404 if absent; then, unless
privileged, 403 unless owner; then the row update is committed through
the session, and afterwards — only when `shared_with` was supplied — the
junction replacement runs as a separate transaction on a separate
connection.  A failure there propagates (500) with the row update already
committed. -/
def update_note (db : DB) (u : User) (nid : Nat) (upd : NoteUpdate)
    (failAt : Option Nat) : DB × Except Nat Note :=
  match dbGetNote db nid with
  | none => (db, .error 404)
  | some note =>
    if !u.isPrivileged && note.userId != some u.id then (db, .error 403)
    else
      let note' := applyNoteFields note upd
      let db1 := { db with notes := db.notes.map (fun n => if n.id == nid then note' else n) }
      match upd.sharedWith with
      | none => (db1, .ok note')
      | some ids =>
        match replaceJunctionTx db1.noteShares nid ids failAt with
        | none => (db1, .error 500)
        | some rows => ({ db1 with noteShares := rows }, .ok note')

/-!  ## User endpoint (`app/api/v1/endpoints/users.py`)  -/

/-- `read_user_by_id` (users.py lines 143-177): fetch the row; if it is
the caller's own row (the ORM identity map makes `user == current_user`
hold exactly when the fetched row is the caller's), return it; otherwise,
unless privileged, deny with **status 400** (`HTTPException(status_code =
400, detail = "The user doesn't have enough privileges")`); privileged
callers get the row (possibly `None`). -/
def read_user_by_id (db : DB) (u : User) (uid : String) : Except Nat (Option User) :=
  let user := dbGetUser db uid
  if user == some u then .ok user
  else if !u.isPrivileged then .error 400
  else .ok user

/-!  ## Principal resolution (`app/api/deps.py`, `get_current_user`)  -/

/-- Python falsiness of an optional token string: `None` and the empty
string are both falsy (`if not token`). -/
def tokenFalsy : Option String → Bool
  | none => true
  | some s => s == ""

/-- Python `str.startswith`, structurally over the character list. -/
def pyStartsWith (s pat : String) : Bool :=
  pat.data.isPrefixOf s.data

/-- Helper for `pyReplaceEmpty`: scan the character list, removing every
occurrence of the pattern; the fuel (instantiated with the list length,
an upper bound on the scan steps) makes the recursion structural. -/
def removeAllAux (pat : List Char) : Nat → List Char → List Char
  | 0, s => s
  | _, [] => []
  | fuel + 1, c :: cs =>
    if pat.isPrefixOf (c :: cs) then removeAllAux pat fuel (List.drop pat.length (c :: cs))
    else c :: removeAllAux pat fuel cs

/-- Python `str.replace(pat, "")`: remove every occurrence of the
pattern (the source's `token.replace("Bearer ", "")`). -/
def pyReplaceEmpty (s pat : String) : String :=
  ⟨removeAllAux pat.data s.data.length s.data⟩

/-- The credential codec, an external collaborator per the spec
(`parse(token) -> Claims | Error`).  `decode tok = none` models
`jwt.decode` raising `JWTError` (signature/expiry failure);
`decode tok = some sub?` models a successfully verified payload whose
`"sub"` claim is `sub?` (`payload.get("sub")`, absent ⇒ `none`). -/
structure AuthEnv where
  decode : String → Option (Option String)

/-- Modelled from the spec: the claim schema `TokenData`
(`app/schemas/auth.py`, not present under the reviewed sources) —
"Fails with `Forbidden` when a credential ... fails schema validation of
its embedded claims"; the subject (an email-equivalent identifier) must
be present, so `TokenData(email=None)` raises `ValidationError`. -/
def tokenDataValid (sub : Option String) : Bool :=
  sub.isSome

/-- Credential resolution prelude of `get_current_user` (deps.py lines
58-63): use the bearer token if truthy, otherwise fall back to the
`access_token` cookie, stripping the `"Bearer "` marker when the cookie
value starts with it (the source uses `replace`, which removes every
occurrence). -/
def resolveToken (headerTok cookieTok : Option String) : Option String :=
  let tok :=
    if tokenFalsy headerTok then
      match cookieTok with
      | some c =>
        if !(c == "") && pyStartsWith c "Bearer " then some (pyReplaceEmpty c "Bearer ")
        else cookieTok
      | none => none
    else headerTok
  if tokenFalsy tok then none else tok

/-- `get_current_user` (deps.py lines 30-89): no credential ⇒ 401;
present credential failing verification or claim-schema validation ⇒ 403;
well-formed claims with no matching user (lookup by email) ⇒ 404;
otherwise the matching user.  Pure — no side effects. -/
def get_current_user (env : AuthEnv) (db : DB) (headerTok cookieTok : Option String) :
    Except Nat User :=
  match resolveToken headerTok cookieTok with
  | none => .error 401
  | some tok =>
    match env.decode tok with
    | none => .error 403
    | some sub? =>
      if !tokenDataValid sub? then .error 403
      else
        match sub? with
        | none => .error 403
        | some sub =>
          match db.users.find? (fun x => x.email == sub) with
          | none => .error 404
          | some user => .ok user

/-!  ## Concrete fixtures for witnesses and counterexamples  -/

/-- Non-privileged user who owns project 1 and note 1. -/
def alice : User := { id := "alice", email := "alice@x", roles := [Role.USER] }

/-- Non-privileged user; assignee of tasks 1 and 2, note 1 is shared with
him, owns nothing. -/
def bob : User := { id := "bob", email := "bob@x", roles := [Role.STAFF] }

/-- Privileged user. -/
def rootUser : User := { id := "root", email := "root@x", roles := [Role.ADMIN] }

/-- A small concrete database: project 1 owned by alice; task 1 in
project 1 and task 2 with no project, both assigned to bob; note 1 owned
by alice and shared with bob. -/
def demoDB : DB :=
  { users := [alice, bob, rootUser]
  , projects := [{ id := 1, name := "p", ownerId := some "alice" }]
  , tasks := [{ id := 1, name := "t", status := "task", projectId := some 1 },
              { id := 2, name := "t2", status := "task", projectId := none }]
  , notes := [{ id := 1, title := "n", content := "c", userId := some "alice" }]
  , taskAssignees := [(1, "bob"), (2, "bob")]
  , noteShares := [(1, "bob")]
  , nextProjectId := 2 }

/-!  ## Helper lemmas  -/

/-- Rows kept by the junction DELETE never satisfy the resource-id
predicate again. -/
lemma filter_eq_of_filter_ne (l : List (Nat × String)) (rid : Nat) :
    (l.filter (fun r => r.1 != rid)).filter (fun r => r.1 == rid) = [] := by
  induction l with
  | nil => rfl
  | cons a l ih =>
    by_cases h : a.1 = rid
    · have hb : (a.1 != rid) = false := by simp [h]
      simp only [List.filter, hb, ih]
    · have hb : (a.1 != rid) = true := by simp [bne_iff_ne, h]
      have hb2 : (a.1 == rid) = false := by simp [h]
      simp only [List.filter, hb, hb2, ih]

/-- No surviving row satisfies the resource-id predicate after the
junction DELETE. -/
lemma any_filter_ne (l : List (Nat × String)) (rid : Nat) :
    (l.filter (fun r => r.1 != rid)).any (fun r => r.1 == rid) = false := by
  induction l with
  | nil => rfl
  | cons a l ih =>
    by_cases h : a.1 = rid
    · have hb : (a.1 != rid) = false := by simp [h]
      simp only [List.filter, hb, ih]
    · have hb : (a.1 != rid) = true := by simp [bne_iff_ne, h]
      have hb2 : (a.1 == rid) = false := by simp [h]
      simp only [List.filter, hb, List.any_cons, hb2, ih, Bool.false_or]

/-- The DELETE half of a second replacement removes exactly the rows the
first replacement inserted, restoring the first DELETE's result. -/
lemma filter_ne_replaceJunctionRows (rows : List (Nat × String)) (rid : Nat)
    (ids : List String) :
    (replaceJunctionRows rows rid ids).filter (fun r => r.1 != rid)
      = rows.filter (fun r => r.1 != rid) := by
  unfold replaceJunctionRows
  rw [List.filter_append]
  have h1 : (rows.filter (fun r => r.1 != rid)).filter (fun r => r.1 != rid)
      = rows.filter (fun r => r.1 != rid) := by
    rw [List.filter_filter]
    simp
  have h2 : ((ids.map (fun uid => (rid, uid))).filter (fun r : Nat × String => r.1 != rid)) = [] := by
    induction ids with
    | nil => rfl
    | cons a l ih => simp [List.filter, ih]
  rw [h1, h2, List.append_nil]

/-- After a replacement, the junction rows for the resource are exactly
the inserted ones, in order. -/
lemma filter_eq_replaceJunctionRows (rows : List (Nat × String)) (rid : Nat)
    (ids : List String) :
    (replaceJunctionRows rows rid ids).filter (fun r => r.1 == rid)
      = ids.map (fun uid => (rid, uid)) := by
  unfold replaceJunctionRows
  rw [List.filter_append, filter_eq_of_filter_ne]
  have h2 : ((ids.map (fun uid => (rid, uid))).filter (fun r : Nat × String => r.1 == rid))
      = ids.map (fun uid => (rid, uid)) := by
    induction ids with
    | nil => rfl
    | cons a l ih => simp [List.filter, ih]
  rw [h2, List.nil_append]

/-- A `find?` by a predicate, after mapping the replace-matching-rows
function over the list, finds the replacement. -/
lemma find?_map_replace {α : Type} (p : α → Bool) (x' : α) (hp : p x' = true)
    (l : List α) (a : α) (h : l.find? p = some a) :
    (l.map (fun y => if p y then x' else y)).find? p = some x' := by
  induction l with
  | nil => simp at h
  | cons b l ih =>
    by_cases hb : p b = true
    · simp [List.find?, hb, hp]
    · simp only [List.find?, hb] at h
      simp [List.find?, hb, ih h]

/-- `find?` on a list filtered to exclude the matching rows finds
nothing. -/
lemma find?_filter_ne {α : Type} (p : α → Bool) (l : List α) :
    (l.filter (fun y => !(p y))).find? p = none := by
  induction l with
  | nil => rfl
  | cons b l ih =>
    by_cases hb : p b = true
    · simp [List.filter, hb, ih]
    · simp [List.filter, hb, ih, List.find?]

/-!  ## Claims  -/

/-- C3: for every authenticated non-privileged principal, requesting a
Project id that resolves to no row yields NotFound (404), and requesting
an existing Project whose owner differs from the principal yields
Forbidden (403), on both the read and the update paths; the existence
check precedes the permission check, so the two outcomes are never
confused. -/
theorem C3_existence_before_permission (db : DB) (u : User) (pid : Nat)
    (upd : ProjectUpdate) (hpriv : u.isPrivileged = false) :
    (dbGetProject db pid = none →
      read_project db u pid = .error 404 ∧ (update_project db u pid upd).2 = .error 404)
    ∧ (∀ p, dbGetProject db pid = some p → p.ownerId ≠ some u.id →
      read_project db u pid = .error 403 ∧ (update_project db u pid upd).2 = .error 403) := by
  constructor
  · intro hnone
    constructor
    · simp [read_project, hnone]
    · simp [update_project, hnone]
  · intro p hsome hown
    have hb : (p.ownerId != some u.id) = true := by simp [bne_iff_ne, hown]
    constructor
    · simp [read_project, hsome, hpriv, hb]
    · simp [update_project, hsome, hpriv, hb]

/-- Witness for C3: concrete non-privileged caller, a missing project id
(404 on read and update) and an existing project owned by someone else
(403 on read and update). -/
theorem C3_witness :
    (read_project demoDB bob 99 = .error 404 ∧ (update_project demoDB bob 99 ⟨none⟩).2 = .error 404)
    ∧ (read_project demoDB bob 1 = .error 403 ∧ (update_project demoDB bob 1 ⟨none⟩).2 = .error 403) :=
  ⟨(C3_existence_before_permission demoDB bob 99 ⟨none⟩ (by decide)).1 (by decide),
   (C3_existence_before_permission demoDB bob 1 ⟨none⟩ (by decide)).2
     { id := 1, name := "p", ownerId := some "alice" } (by decide) (by decide)⟩

/-- C10: project creation performs no ownership or privilege check: it
succeeds for every authenticated principal and payload (the new row is
appended unconditionally); a supplied non-empty `owner_id` is kept
verbatim, even when it differs from the caller; an absent (`None`) or
empty owner id is defaulted to the caller's id. -/
theorem C10_create_project_no_ownership_check (db : DB) (u : User) (p : ProjectCreate) :
    (∀ q, p.ownerId = some q → q ≠ "" → (create_project db u p).2.ownerId = some q)
    ∧ ((p.ownerId = none ∨ p.ownerId = some "") → (create_project db u p).2.ownerId = some u.id)
    ∧ (create_project db u p).1.projects = db.projects ++ [(create_project db u p).2] := by
  refine ⟨?_, ?_, rfl⟩
  · intro q hq hne
    simp [create_project, hq, hne]
  · intro h
    rcases h with h | h <;> simp [create_project, h]

/-- Witness for C10: a non-privileged caller creating a project owned by
a different existing principal keeps that owner verbatim; omitting the
owner defaults it to the caller. -/
theorem C10_witness :
    (create_project demoDB bob { name := "x", ownerId := some "alice" }).2.ownerId = some "alice"
    ∧ (create_project demoDB bob { name := "y", ownerId := none }).2.ownerId = some "bob" :=
  ⟨(C10_create_project_no_ownership_check demoDB bob { name := "x", ownerId := some "alice" }).1
      "alice" rfl (by decide),
   (C10_create_project_no_ownership_check demoDB bob { name := "y", ownerId := none }).2.1
      (Or.inl rfl)⟩

/-- C1 counterexample: the claim says update and delete apply the same
membership check as read (project-owner OR assignee).  On the concrete
database, non-privileged bob is an assignee of task 1 (whose project is
owned by alice), so read succeeds — yet update and delete both yield
Forbidden: assignment is not consulted by update/delete, refuting the
claimed "succeed if and only if ... or a TaskAssignment row exists". -/
theorem C1_counterexample :
    assigned demoDB 1 "bob" = true
    ∧ read_task demoDB bob 1 = .ok { id := 1, name := "t", status := "task", projectId := some 1 }
    ∧ (update_task demoDB bob 1 ⟨none, none, none⟩ none).2 = .error 403
    ∧ (delete_task demoDB bob 1).2 = .error 403 := by
  refine ⟨by decide, rfl, rfl, rfl⟩

/-- C1 amended: for a non-privileged principal and an existing task,
update and delete are gated on project ownership alone: they succeed when
the principal owns the task's parent project, and otherwise yield
Forbidden — a task assignment grants read access but not update/delete
access. -/
theorem C1_amended_update_delete_project_owner_only (db : DB) (u : User) (tid : Nat)
    (upd : TaskUpdate) (task : Task) (hpriv : u.isPrivileged = false)
    (hfind : dbGetTask db tid = some task) :
    (projectOwned db task u = true →
      (update_task db u tid upd none).2 = .ok (applyTaskFields task upd)
      ∧ (delete_task db u tid).2 = .ok ())
    ∧ (projectOwned db task u = false →
      (update_task db u tid upd none).2 = .error 403
      ∧ (delete_task db u tid).2 = .error 403) := by
  constructor
  · intro howned
    constructor
    · cases hassign : upd.assignees with
      | none => simp [update_task, hfind, hpriv, howned, hassign]
      | some ids => simp [update_task, hfind, hpriv, howned, hassign, replaceJunctionTx]
    · simp [delete_task, hfind, hpriv, howned, deleteTaskRow, any_filter_ne]
  · intro howned
    constructor
    · simp [update_task, hfind, hpriv, howned]
    · simp [delete_task, hfind, hpriv, howned]

/-- Witness for C1's amended theorem: alice owns task 1's project, so her
update succeeds; bob does not own task 2's (absent) project, so his
update is Forbidden. -/
theorem C1_witness :
    (update_task demoDB alice 1 ⟨none, none, none⟩ none).2
        = .ok (applyTaskFields { id := 1, name := "t", status := "task", projectId := some 1 }
                ⟨none, none, none⟩)
    ∧ (update_task demoDB bob 2 ⟨none, none, none⟩ none).2 = .error 403 :=
  ⟨((C1_amended_update_delete_project_owner_only demoDB alice 1 ⟨none, none, none⟩
      { id := 1, name := "t", status := "task", projectId := some 1 }
      (by decide) (by decide)).1 (by decide)).1,
   ((C1_amended_update_delete_project_owner_only demoDB bob 2 ⟨none, none, none⟩
      { id := 2, name := "t2", status := "task", projectId := none }
      (by decide) (by decide)).2 (by decide)).1⟩

/-- C4 counterexample: the claim says every policy denial on an existing
resource is Forbidden (403).  Non-privileged bob reading existing user
"alice" is denied with status 400, not 403. -/
theorem C4_counterexample :
    dbGetUser demoDB "alice" = some alice
    ∧ read_user_by_id demoDB bob "alice" = .error 400
    ∧ read_user_by_id demoDB bob "alice" ≠ .error 403 := by
  refine ⟨by decide, rfl, ?_⟩
  intro h
  rw [show read_user_by_id demoDB bob "alice" = .error 400 from rfl] at h
  exact absurd (by injection h) (by decide)

/-- C4 amended: denials by the Project/Task/Note policies surface
Forbidden (403) — proved alongside the other claims — but the denial
returned when a non-privileged principal reads another principal's User
record is status 400 (the ValidationError boundary status), not 403. -/
theorem C4_amended_user_read_denial_is_400 (db : DB) (u : User) (uid : String)
    (hpriv : u.isPrivileged = false) (hne : dbGetUser db uid ≠ some u) :
    read_user_by_id db u uid = .error 400 := by
  have hb : (dbGetUser db uid == some u) = false := by
    simp [hne]
  simp [read_user_by_id, hb, hpriv]

/-- Witness for C4's amended theorem: bob requesting alice's record. -/
theorem C4_witness : read_user_by_id demoDB bob "alice" = .error 400 :=
  C4_amended_user_read_denial_is_400 demoDB bob "alice" (by decide) (by decide)

/-- C7: a successful delete of a task (any number of assignees) removes
every `task_assignees` row referencing it and the task row itself; the
junction rows are removed first, so the foreign-key-constrained row
delete (`deleteTaskRow`) succeeds; a subsequent read of the task id
yields NotFound for every principal. -/
theorem C7_cascade_safe_delete (db : DB) (u : User) (tid : Nat) (task : Task)
    (hfind : dbGetTask db tid = some task)
    (hauth : u.isPrivileged = true ∨ projectOwned db task u = true) :
    (delete_task db u tid).2 = .ok ()
    ∧ (delete_task db u tid).1.taskAssignees = db.taskAssignees.filter (fun r => r.1 != tid)
    ∧ (delete_task db u tid).1.taskAssignees.filter (fun r => r.1 == tid) = []
    ∧ dbGetTask (delete_task db u tid).1 tid = none
    ∧ (∀ v, read_task (delete_task db u tid).1 v tid = .error 404) := by
  have hcond : (!u.isPrivileged && !projectOwned db task u) = false := by
    rcases hauth with h | h <;> simp [h]
  have hdel : delete_task db u tid =
      ({ db with taskAssignees := db.taskAssignees.filter (fun r => r.1 != tid),
                 tasks := db.tasks.filter (fun t => t.id != tid) }, .ok ()) := by
    simp [delete_task, hfind, hcond, deleteTaskRow, any_filter_ne]
  have hget : dbGetTask (delete_task db u tid).1 tid = none := by
    rw [hdel]
    show (db.tasks.filter (fun t => t.id != tid)).find? (fun t => t.id == tid) = none
    have : (fun t : Task => t.id != tid) = (fun t : Task => !(t.id == tid)) := by
      funext t; simp [bne]
    rw [this]
    exact find?_filter_ne _ _
  refine ⟨by rw [hdel], by rw [hdel], ?_, hget, ?_⟩
  · rw [hdel]
    exact filter_eq_of_filter_ne _ _
  · intro v
    simp [read_task, hget]

/-- Witness for C7: alice deletes task 1 (assigned to bob): success, no
junction rows for task 1 remain, the task is gone, and re-fetching yields
404. -/
theorem C7_witness :
    (delete_task demoDB alice 1).2 = .ok ()
    ∧ (delete_task demoDB alice 1).1.taskAssignees.filter (fun r => r.1 == 1) = []
    ∧ dbGetTask (delete_task demoDB alice 1).1 1 = none
    ∧ read_task (delete_task demoDB alice 1).1 bob 1 = .error 404 :=
  let h := C7_cascade_safe_delete demoDB alice 1
    { id := 1, name := "t", status := "task", projectId := some 1 } (by decide)
    (Or.inr (by decide))
  ⟨h.1, h.2.2.1, h.2.2.2.1, h.2.2.2.2 bob⟩

/-- C9: a non-privileged principal who is not the owner of an existing
note is Forbidden from reading it even when the note is shared with them
via `note_shares`; indeed the read outcome is invariant under arbitrary
changes to the stored sharing table — the membership is never consulted
for read authorization. -/
theorem C9_sharing_not_consulted (db : DB) (u : User) (nid : Nat) (note : Note)
    (hpriv : u.isPrivileged = false) (hfind : dbGetNote db nid = some note)
    (hown : note.userId ≠ some u.id) (hshared : (nid, u.id) ∈ db.noteShares) :
    read_note db u nid = .error 403
    ∧ (∀ shares, read_note { db with noteShares := shares } u nid = read_note db u nid) := by
  have hb : (note.userId != some u.id) = true := by simp [bne_iff_ne, hown]
  exact ⟨by simp [read_note, hfind, hpriv, hb], fun shares => rfl⟩

/-- Witness for C9: note 1 is owned by alice and shared with bob, yet
non-privileged bob's read is Forbidden. -/
theorem C9_witness : read_note demoDB bob 1 = .error 403 :=
  (C9_sharing_not_consulted demoDB bob 1
    { id := 1, title := "n", content := "c", userId := some "alice" }
    (by decide) (by decide) (by decide) (by decide)).1

/-- C5: a note update whose payload omits `shared_with` leaves the
`note_shares` table unchanged (on every path, for every failure
schedule); an authorized update supplying `shared_with = []` leaves the
note with an empty share set (and touches no other note's rows). -/
theorem C5_membership_omission_noop_empty_clears (db : DB) (u : User) (nid : Nat)
    (upd : NoteUpdate) :
    (∀ failAt, upd.sharedWith = none →
      (update_note db u nid upd failAt).1.noteShares = db.noteShares)
    ∧ (∀ note, dbGetNote db nid = some note →
        (u.isPrivileged = true ∨ note.userId = some u.id) →
        upd.sharedWith = some [] →
        (update_note db u nid upd none).1.noteShares.filter (fun r => r.1 == nid) = []
        ∧ (update_note db u nid upd none).1.noteShares.filter (fun r => r.1 != nid)
            = db.noteShares.filter (fun r => r.1 != nid)) := by
  constructor
  · intro failAt hnone
    cases hfind : dbGetNote db nid with
    | none => simp [update_note, hfind]
    | some note =>
      by_cases hcond : (!u.isPrivileged && note.userId != some u.id) = true
      · simp [update_note, hfind, hcond]
      · simp [update_note, hfind, hcond, hnone]
  · intro note hfind hauth hempty
    have hcond : (!u.isPrivileged && note.userId != some u.id) = false := by
      rcases hauth with h | h <;> simp [h]
    have hupd : (update_note db u nid upd none).1.noteShares
        = replaceJunctionRows db.noteShares nid [] := by
      simp [update_note, hfind, hcond, hempty, replaceJunctionTx]
    rw [hupd]
    exact ⟨filter_eq_replaceJunctionRows _ _ _, filter_ne_replaceJunctionRows _ _ _⟩

/-- Witness for C5: alice updates note 1 omitting `shared_with` — the
share set stays `[(1, "bob")]`; updating with the empty collection clears
note 1's shares. -/
theorem C5_witness :
    (update_note demoDB alice 1 ⟨some "t2", none, none⟩ none).1.noteShares = demoDB.noteShares
    ∧ (update_note demoDB alice 1 ⟨none, none, some []⟩ none).1.noteShares.filter
        (fun r => r.1 == 1) = [] :=
  ⟨(C5_membership_omission_noop_empty_clears demoDB alice 1 ⟨some "t2", none, none⟩).1 none rfl,
   ((C5_membership_omission_noop_empty_clears demoDB alice 1 ⟨none, none, some []⟩).2
      { id := 1, title := "n", content := "c", userId := some "alice" }
      (by decide) (Or.inr (by decide)) rfl).1⟩

/-- The task found by primary key carries that key. -/
lemma dbGetTask_id (db : DB) (tid : Nat) (task : Task)
    (h : dbGetTask db tid = some task) : task.id = tid := by
  have hp := List.find?_some h
  simpa using hp

/-- Committed state of an authorized `update_task` that supplies an
explicit assignee collection and hits no persistence failure. -/
lemma update_task_authorized_state (db : DB) (u : User) (tid : Nat) (upd : TaskUpdate)
    (task : Task) (ids : List String) (hfind : dbGetTask db tid = some task)
    (hauth : u.isPrivileged = true ∨ projectOwned db task u = true)
    (hids : upd.assignees = some ids) :
    update_task db u tid upd none =
      ({ db with
          tasks := db.tasks.map (fun t => if t.id == tid then applyTaskFields task upd else t),
          taskAssignees := replaceJunctionRows db.taskAssignees tid ids },
       .ok (applyTaskFields task upd)) := by
  have hcond : (!u.isPrivileged && !projectOwned db task u) = false := by
    rcases hauth with h | h <;> simp [h]
  simp [update_task, hfind, hcond, hids, replaceJunctionTx]

/-- Replacing a resource's junction rows with the same collection twice
commits the same rows as doing it once. -/
lemma replaceJunctionRows_idem (rows : List (Nat × String)) (rid : Nat) (ids : List String) :
    replaceJunctionRows (replaceJunctionRows rows rid ids) rid ids
      = replaceJunctionRows rows rid ids := by
  conv_lhs => rw [replaceJunctionRows]
  rw [filter_ne_replaceJunctionRows]
  rfl

/-- C6: membership replacement is idempotent at the endpoint level: an
authorized task update supplying assignees `[A, B]` (distinct), repeated
twice, leaves the `task_assignees` table holding exactly the rows
`(tid, A), (tid, B)` for that task — no duplicates, no rows left over
from earlier membership — and the second replacement changes nothing. -/
theorem C6_replace_membership_idempotent (db : DB) (u : User) (tid : Nat) (task : Task)
    (A B : String) (hAB : A ≠ B) (hfind : dbGetTask db tid = some task)
    (hauth : u.isPrivileged = true ∨ projectOwned db task u = true) :
    let upd : TaskUpdate := ⟨none, none, some [A, B]⟩
    let db1 := (update_task db u tid upd none).1
    let db2 := (update_task db1 u tid upd none).1
    db2.taskAssignees.filter (fun r => r.1 == tid) = [(tid, A), (tid, B)]
    ∧ db2.taskAssignees = db1.taskAssignees
    ∧ (db2.taskAssignees.filter (fun r => r.1 == tid)).Nodup := by
  intro upd db1 db2
  have h1 := update_task_authorized_state db u tid upd task [A, B] hfind hauth rfl
  have hid : task.id = tid := dbGetTask_id db tid task hfind
  have hdb1 : db1 = { db with
      tasks := db.tasks.map (fun t => if t.id == tid then applyTaskFields task upd else t),
      taskAssignees := replaceJunctionRows db.taskAssignees tid [A, B] } :=
    congrArg Prod.fst h1
  have hfind1 : dbGetTask db1 tid = some (applyTaskFields task upd) := by
    rw [hdb1]
    show (db.tasks.map (fun t => if t.id == tid then applyTaskFields task upd else t)).find?
        (fun t => t.id == tid) = some (applyTaskFields task upd)
    exact find?_map_replace (fun t => t.id == tid) (applyTaskFields task upd)
      (by simp [applyTaskFields, hid]) db.tasks task
      (show List.find? (fun t : Task => t.id == tid) db.tasks = some task from hfind)
  have hauth1 : u.isPrivileged = true ∨ projectOwned db1 (applyTaskFields task upd) u = true := by
    rcases hauth with h | h
    · exact Or.inl h
    · refine Or.inr ?_
      rw [hdb1]
      show projectOwned db task u = true
      exact h
  have h2 := update_task_authorized_state db1 u tid upd (applyTaskFields task upd) [A, B]
    hfind1 hauth1 rfl
  have hja1 : db1.taskAssignees = replaceJunctionRows db.taskAssignees tid [A, B] := by
    rw [hdb1]
  have hja2 : db2.taskAssignees = replaceJunctionRows db1.taskAssignees tid [A, B] := by
    rw [show db2 = _ from congrArg Prod.fst h2]
  refine ⟨?_, ?_, ?_⟩
  · rw [hja2, filter_eq_replaceJunctionRows]
    rfl
  · rw [hja2, hja1, replaceJunctionRows_idem]
  · rw [hja2, filter_eq_replaceJunctionRows]
    simp [hAB]

/-- Witness for C6: alice updates task 1 twice with assignees
`["carol", "dan"]`; exactly those two junction rows remain for task 1 and
the second update is a no-op on the junction table. -/
theorem C6_witness :
    ((update_task (update_task demoDB alice 1 ⟨none, none, some ["carol", "dan"]⟩ none).1
        alice 1 ⟨none, none, some ["carol", "dan"]⟩ none).1.taskAssignees.filter
          (fun r => r.1 == 1) = [(1, "carol"), (1, "dan")])
    ∧ (update_task (update_task demoDB alice 1 ⟨none, none, some ["carol", "dan"]⟩ none).1
        alice 1 ⟨none, none, some ["carol", "dan"]⟩ none).1.taskAssignees
      = (update_task demoDB alice 1 ⟨none, none, some ["carol", "dan"]⟩ none).1.taskAssignees :=
  let h := C6_replace_membership_idempotent demoDB alice 1
    { id := 1, name := "t", status := "task", projectId := some 1 } "carol" "dan"
    (by decide) (by decide) (Or.inr (by decide))
  ⟨h.1, h.2.1⟩

/-- C2 counterexample: the resource-row mutation and the junction
replacement do not commit as one atomic unit.  Alice's authorized update
of note 1 sets the title and supplies `shared_with = ["carol", "dave"]`;
the replacement transaction fails partway (at its first INSERT) and the
request errors — yet the observable state has the title update committed
while the membership is still the old set, not the supplied one: the two
mutations committed separately, refuting the claimed all-or-nothing
coupling. -/
theorem C2_counterexample :
    (update_note demoDB alice 1 ⟨some "new", none, some ["carol", "dave"]⟩ (some 1)).2
        = .error 500
    ∧ dbGetNote (update_note demoDB alice 1 ⟨some "new", none, some ["carol", "dave"]⟩
        (some 1)).1 1 = some { id := 1, title := "new", content := "c", userId := some "alice" }
    ∧ (update_note demoDB alice 1 ⟨some "new", none, some ["carol", "dave"]⟩
        (some 1)).1.noteShares = [(1, "bob")]
    ∧ [((1 : Nat), "bob")] ≠ ["carol", "dave"].map (fun uid => ((1 : Nat), uid)) :=
  ⟨rfl, by decide, by decide, by decide⟩

/-- C2 amended: the junction replacement itself is all-or-nothing, but it
commits in a separate transaction after the resource-row update.  For
every Note or Task update and every failure schedule, the junction table
afterwards is either exactly what it was before or exactly the full
replacement by the supplied collection — a partially replaced membership
set is never observable — while a failed replacement leaves the already
committed resource-row update in place with the old membership (as the
counterexample exhibits). -/
theorem C2_amended_membership_all_or_nothing (db : DB) (u : User) (nid tid : Nat)
    (nupd : NoteUpdate) (tupd : TaskUpdate) (nFail tFail : Option Nat) :
    ((update_note db u nid nupd nFail).1.noteShares = db.noteShares
      ∨ ∃ ids, nupd.sharedWith = some ids ∧
          (update_note db u nid nupd nFail).1.noteShares
            = replaceJunctionRows db.noteShares nid ids)
    ∧ ((update_task db u tid tupd tFail).1.taskAssignees = db.taskAssignees
      ∨ ∃ ids, tupd.assignees = some ids ∧
          (update_task db u tid tupd tFail).1.taskAssignees
            = replaceJunctionRows db.taskAssignees tid ids) := by
  constructor
  · cases hfind : dbGetNote db nid with
    | none => exact Or.inl (by simp [update_note, hfind])
    | some note =>
      by_cases hcond : (!u.isPrivileged && note.userId != some u.id) = true
      · exact Or.inl (by simp [update_note, hfind, hcond])
      · cases hsw : nupd.sharedWith with
        | none => exact Or.inl (by simp [update_note, hfind, hcond, hsw])
        | some ids =>
          cases nFail with
          | none =>
            exact Or.inr ⟨ids, rfl, by simp [update_note, hfind, hcond, hsw, replaceJunctionTx]⟩
          | some k =>
            by_cases hk : k ≤ ids.length
            · exact Or.inl (by simp [update_note, hfind, hcond, hsw, replaceJunctionTx, hk])
            · exact Or.inr ⟨ids, rfl,
                by simp [update_note, hfind, hcond, hsw, replaceJunctionTx, hk]⟩
  · cases hfind : dbGetTask db tid with
    | none => exact Or.inl (by simp [update_task, hfind])
    | some task =>
      by_cases hcond : (!u.isPrivileged && !projectOwned db task u) = true
      · exact Or.inl (by simp [update_task, hfind, hcond])
      · cases hsw : tupd.assignees with
        | none => exact Or.inl (by simp [update_task, hfind, hcond, hsw])
        | some ids =>
          cases tFail with
          | none =>
            exact Or.inr ⟨ids, rfl, by simp [update_task, hfind, hcond, hsw, replaceJunctionTx]⟩
          | some k =>
            by_cases hk : k ≤ ids.length
            · exact Or.inl (by simp [update_task, hfind, hcond, hsw, replaceJunctionTx, hk])
            · exact Or.inr ⟨ids, rfl,
                by simp [update_task, hfind, hcond, hsw, replaceJunctionTx, hk]⟩

/-- C8: principal resolution partitions its outcomes exactly as: no
resolvable credential (neither a truthy bearer token nor a truthy cookie
value) ⇒ Unauthenticated (401); a credential that fails signature/expiry
verification, or whose verified claims fail schema validation (missing
subject) ⇒ Forbidden (403); well-formed claims whose subject matches no
stored principal ⇒ NotFound (404); otherwise the matching principal is
returned.  `get_current_user` is a pure function of its inputs — no side
effects. -/
theorem C8_principal_resolution_partition (env : AuthEnv) (db : DB)
    (headerTok cookieTok : Option String) :
    (resolveToken headerTok cookieTok = none →
      get_current_user env db headerTok cookieTok = .error 401)
    ∧ (∀ tok, resolveToken headerTok cookieTok = some tok →
        (env.decode tok = none ∨ env.decode tok = some none →
          get_current_user env db headerTok cookieTok = .error 403)
        ∧ (∀ sub, env.decode tok = some (some sub) →
            (db.users.find? (fun x => x.email == sub) = none →
              get_current_user env db headerTok cookieTok = .error 404)
            ∧ (∀ user, db.users.find? (fun x => x.email == sub) = some user →
                get_current_user env db headerTok cookieTok = .ok user))) := by
  refine ⟨fun h => by simp [get_current_user, h],
    fun tok htok => ⟨fun hdec => ?_, fun sub hsub => ⟨fun hnone => ?_, fun user huser => ?_⟩⟩⟩
  · rcases hdec with h | h <;> simp [get_current_user, htok, h, tokenDataValid]
  · simp [get_current_user, htok, hsub, tokenDataValid, hnone]
  · simp [get_current_user, htok, hsub, tokenDataValid, huser]

/-- Concrete credential codec for the C8 witness: `"good"` verifies with
subject `alice@x`, `"nosub"` verifies but lacks a subject claim,
`"ghost"` verifies with a subject matching no stored principal, anything
else fails verification. -/
def demoAuth : AuthEnv :=
  ⟨fun t =>
    if t = "good" then some (some "alice@x")
    else if t = "nosub" then some none
    else if t = "ghost" then some (some "ghost@x")
    else none⟩

/-- Witness for C8: all four outcomes at concrete inputs, including the
cookie fallback with the `"Bearer "` marker stripped. -/
theorem C8_witness :
    get_current_user demoAuth demoDB none none = .error 401
    ∧ get_current_user demoAuth demoDB (some "bad") none = .error 403
    ∧ get_current_user demoAuth demoDB (some "nosub") none = .error 403
    ∧ get_current_user demoAuth demoDB (some "ghost") none = .error 404
    ∧ get_current_user demoAuth demoDB none (some "Bearer good") = .ok alice :=
  ⟨(C8_principal_resolution_partition demoAuth demoDB none none).1 rfl,
   ((C8_principal_resolution_partition demoAuth demoDB (some "bad") none).2 "bad"
      (by decide)).1 (Or.inl rfl),
   ((C8_principal_resolution_partition demoAuth demoDB (some "nosub") none).2 "nosub"
      (by decide)).1 (Or.inr rfl),
   (((C8_principal_resolution_partition demoAuth demoDB (some "ghost") none).2 "ghost"
      (by decide)).2 "ghost@x" rfl).1 (by decide),
   (((C8_principal_resolution_partition demoAuth demoDB none (some "Bearer good")).2 "good"
      (by decide)).2 "alice@x" rfl).2 alice (by decide)⟩

end FastDash
